import Mathlib

/-
Verification development for the forge-loop-cli repository.

The Rust sources under crates/forge-core and crates/forge-engine are shallowly
embedded as executable Lean definitions: pure string analysis becomes pure
functions on String, the stateful run loop becomes a fuel-indexed recursion
over an explicit state record, filesystem contents become explicit values
(Option String for a file that may be absent), and OS facilities (the process
liveness probe, the wall clock, serde_json parsing) become explicit function
parameters, so that every theorem quantifies over their behaviour.
-/

namespace Forge

/-- Decides whether the second character list is a prefix of the first.
Helper for the substring test below. -/
def charsStartWith : List Char → List Char → Bool
  | _, [] => true
  | [], _ :: _ => false
  | a :: as, b :: bs => a == b && charsStartWith as bs

/-- Decides whether the second character list occurs contiguously inside the
first. Helper for the substring test below. -/
def charsHasSub : List Char → List Char → Bool
  | [], pat => pat.isEmpty
  | c :: rest, pat => charsStartWith (c :: rest) pat || charsHasSub rest pat

/-- Models Rust str::contains(&str): substring occurrence test. -/
def strContains (hay pat : String) : Bool :=
  charsHasSub hay.data pat.data

/-- Models Rust str::to_ascii_lowercase: ASCII letters are lowered, all other
characters kept. Lean's Char.toLower is exactly the ASCII lowering. -/
def asciiLower (s : String) : String :=
  String.mk (s.data.map Char.toLower)

/-- Models Rust str::trim for the ASCII whitespace that occurs in this
program's data: leading and trailing whitespace characters are removed. -/
def rustTrim (s : String) : String :=
  String.mk (((s.data.dropWhile Char.isWhitespace).reverse.dropWhile Char.isWhitespace).reverse)

/-- Splits a character list at every newline character; the separator is
dropped. An empty input yields one empty segment, as splitting does. -/
def splitNl : List Char → List (List Char)
  | [] => [[]]
  | c :: rest =>
    if c == '\n' then [] :: splitNl rest
    else
      match splitNl rest with
      | [] => [[c]]
      | l :: ls => (c :: l) :: ls

/-- Drops a trailing carriage return, as Rust str::lines does per line. -/
def stripCr (l : List Char) : List Char :=
  match l.reverse with
  | '\r' :: rest => rest.reverse
  | _ => l

/-- Drops a final empty segment, so that a trailing newline does not produce
an extra empty line, as Rust str::lines does. -/
def dropLastIfEmpty (parts : List (List Char)) : List (List Char) :=
  match parts.getLast? with
  | some [] => parts.dropLast
  | _ => parts

/-- Models Rust str::lines: split on newline characters, drop a final empty
segment, and strip one trailing carriage return from each line. -/
def rustLines (s : String) : List String :=
  (dropLastIfEmpty (splitNl s.data)).map (fun l => String.mk (stripCr l))

/-- Model of a parsed serde_json::Value. Objects are association lists in
document order; serde_json's map lookup becomes first-match lookup. Numeric
payloads are irrelevant to every claim and are carried as Int. -/
inductive Json where
  | null : Json
  | bool : Bool → Json
  | num : Int → Json
  | str : String → Json
  | arr : List Json → Json
  | obj : List (String × Json) → Json

/-- First value stored under the given key, modelling serde_json Map::get. -/
def assocGet : List (String × Json) → String → Option Json
  | [], _ => none
  | (k, v) :: rest, key => if k == key then some v else assocGet rest key

/-- The value under the key when it is a JSON string, as the pattern
`if let Some(Value::String(v)) = map.get(key)` in the sources. -/
def objGetStr (m : List (String × Json)) (key : String) : Option String :=
  match assocGet m key with
  | some (Json.str v) => some v
  | _ => none

mutual
/-- Models json_contains_string from crates/forge-core/src/lib.rs (the same
function is duplicated in crates/forge-engine/src/output_parser.rs): a needle
is found when some string value in the JSON tree contains it as a substring. -/
def jsonContainsString (needle : String) : Json → Bool
  | Json.str s => strContains s needle
  | Json.arr xs => jsonArrContains needle xs
  | Json.obj m => jsonObjContains needle m
  | _ => false

/-- Array leg of jsonContainsString, modelling arr.iter().any(..). -/
def jsonArrContains (needle : String) : List Json → Bool
  | [] => false
  | x :: xs => jsonContainsString needle x || jsonArrContains needle xs

/-- Object leg of jsonContainsString, modelling map.values().any(..). -/
def jsonObjContains (needle : String) : List (String × Json) → Bool
  | [] => false
  | (_, v) :: rest => jsonContainsString needle v || jsonObjContains needle rest
end

mutual
/-- Models extract_session_id from crates/forge-core/src/lib.rs: probe the
keys session_id, thread_id, conversation_id for a string value, then recurse
through the object's values in order. -/
def extractSessionIdCore : Json → Option String
  | Json.obj m =>
    match objGetStr m "session_id" with
    | some v => some v
    | none =>
      match objGetStr m "thread_id" with
      | some v => some v
      | none =>
        match objGetStr m "conversation_id" with
        | some v => some v
        | none => coreExtractObj m
  | Json.arr xs => coreExtractArr xs
  | _ => none

/-- Array leg of extractSessionIdCore, modelling arr.iter().find_map(..). -/
def coreExtractArr : List Json → Option String
  | [] => none
  | x :: xs =>
    match extractSessionIdCore x with
    | some v => some v
    | none => coreExtractArr xs

/-- Object leg of extractSessionIdCore, modelling map.values().find_map(..). -/
def coreExtractObj : List (String × Json) → Option String
  | [] => none
  | (_, v) :: rest =>
    match extractSessionIdCore v with
    | some s => some s
    | none => coreExtractObj rest
end

mutual
/-- Models extract_session_id from crates/forge-engine/src/output_parser.rs:
identical to the forge-core revision except that the key list additionally
ends with the key id. -/
def extractSessionIdEngine : Json → Option String
  | Json.obj m =>
    match objGetStr m "session_id" with
    | some v => some v
    | none =>
      match objGetStr m "thread_id" with
      | some v => some v
      | none =>
        match objGetStr m "conversation_id" with
        | some v => some v
        | none =>
          match objGetStr m "id" with
          | some v => some v
          | none => engineExtractObj m
  | Json.arr xs => engineExtractArr xs
  | _ => none

/-- Array leg of extractSessionIdEngine. -/
def engineExtractArr : List Json → Option String
  | [] => none
  | x :: xs =>
    match extractSessionIdEngine x with
    | some v => some v
    | none => engineExtractArr xs

/-- Object leg of extractSessionIdEngine. -/
def engineExtractObj : List (String × Json) → Option String
  | [] => none
  | (_, v) :: rest =>
    match extractSessionIdEngine v with
    | some s => some s
    | none => engineExtractObj rest
end

/-- Models the OutputAnalysis struct of forge-types / forge-core. -/
structure OutputAnalysis where
  exit_signal_true : Bool
  completion_indicators : Nat
  has_error : Bool
  has_progress_hint : Bool
  session_id : Option String
deriving Repr, DecidableEq

/-- Models one pass of the per-line loop in analyze_output
(crates/forge-core/src/lib.rs lines 528-541): the accumulator carries the
session id and the completion count; serde_json::from_str is supplied as the
jparse parameter. -/
def coreLineStep (jparse : String → Option Json) (indicators : List String)
    (acc : Option String × Nat) (line : String) : Option String × Nat :=
  match jparse line with
  | some value =>
    let sid := if acc.1.isNone then extractSessionIdCore value else acc.1
    let cnt :=
      if acc.2 = 0 then
        (indicators.filter (fun needle => jsonContainsString needle value)).length
      else acc.2
    (sid, cnt)
  | none => acc

/-- Models analyze_output from crates/forge-core/src/lib.rs. The jparse
parameter stands for serde_json::from_str on one line of stdout. -/
def analyze_output (jparse : String → Option Json) (stdout stderr : String)
    (indicators : List String) : OutputAnalysis :=
  let text := stdout ++ "\n" ++ stderr
  let lowercase := asciiLower text
  let completion0 := (indicators.filter (fun item => strContains text item)).length
  let exitSig := strContains lowercase "exit_signal: true"
  let hasErr := strContains lowercase "\"error\"" || strContains lowercase "error:"
  let hasHint := strContains lowercase "apply_patch" || strContains lowercase "updated file"
    || strContains lowercase "wrote" || strContains lowercase "created"
    || strContains lowercase "modified"
  let res := (rustLines stdout).foldl (coreLineStep jparse indicators) (none, completion0)
  { exit_signal_true := exitSig
    completion_indicators := res.2
    has_error := hasErr
    has_progress_hint := hasHint
    session_id := res.1 }

/-- Models count_completion_indicators from
crates/forge-engine/src/output_parser.rs. -/
def count_completion_indicators (text : String) (indicators : List String) : Nat :=
  (indicators.filter (fun item => strContains text item)).length

/-- Models detect_error from crates/forge-engine/src/output_parser.rs. -/
def detect_error (lowercase : String) : Bool :=
  strContains lowercase "\"error\"" || strContains lowercase "error:"

/-- Models detect_progress_hint from crates/forge-engine/src/output_parser.rs. -/
def detect_progress_hint (lowercase : String) : Bool :=
  strContains lowercase "apply_patch" || strContains lowercase "updated file"
    || strContains lowercase "wrote" || strContains lowercase "created"
    || strContains lowercase "modified"

/-- Models count_json_indicators from crates/forge-engine/src/output_parser.rs. -/
def count_json_indicators (value : Json) (indicators : List String) : Nat :=
  (indicators.filter (fun needle => jsonContainsString needle value)).length

/-- Models one pass of the per-line loop in OutputParser::parse
(crates/forge-engine/src/output_parser.rs lines 17-26). -/
def engineLineStep (jparse : String → Option Json) (indicators : List String)
    (acc : Option String × Nat) (line : String) : Option String × Nat :=
  match jparse line with
  | some value =>
    let sid := if acc.1.isNone then extractSessionIdEngine value else acc.1
    let cnt := if acc.2 = 0 then count_json_indicators value indicators else acc.2
    (sid, cnt)
  | none => acc

/-- Models OutputParser::parse from crates/forge-engine/src/output_parser.rs.
The jparse parameter stands for serde_json::from_str on one line of stdout. -/
def outputParser_parse (jparse : String → Option Json) (stdout stderr : String)
    (indicators : List String) : OutputAnalysis :=
  let text := stdout ++ "\n" ++ stderr
  let lowercase := asciiLower text
  let completion0 := count_completion_indicators text indicators
  let exitSig := strContains lowercase "exit_signal: true"
  let hasErr := detect_error lowercase
  let hasHint := detect_progress_hint lowercase
  let res := (rustLines stdout).foldl (engineLineStep jparse indicators) (none, completion0)
  { exit_signal_true := exitSig
    completion_indicators := res.2
    has_error := hasErr
    has_progress_hint := hasHint
    session_id := res.1 }

/-- Models CircuitState from crates/forge-types/src/lib.rs. -/
inductive CircuitState where
  | Closed : CircuitState
  | HalfOpen : CircuitState
  | Open : CircuitState
deriving Repr, DecidableEq

/-- Models CircuitBreakerState from crates/forge-types/src/lib.rs. The u32
counter is carried as Nat; it only ever moves by single increments or resets
to zero in the sources. -/
structure CircuitBreakerState where
  state : CircuitState
  consecutive_no_progress : Nat
deriving Repr, DecidableEq

/-- Models the Default impl for CircuitBreakerState. -/
def CircuitBreakerState.default : CircuitBreakerState :=
  { state := CircuitState.Closed, consecutive_no_progress := 0 }

/-- Models the RunStatus struct as constructed by crates/forge-core/src/lib.rs
(the forge-types revision in the corpus lacks the thinking_mode and
run_started_at_epoch fields that forge-core's run_loop populates; the model
carries the superset). u64/u32 fields are carried as Nat. -/
structure RunStatus where
  state : String
  thinking_mode : String
  run_started_at_epoch : Nat
  current_loop : Nat
  total_loops_executed : Nat
  last_error : Option String
  completion_indicators : Nat
  exit_signal_seen : Bool
  session_id : Option String
  circuit_state : CircuitState
  current_loop_started_at_epoch : Nat
  last_heartbeat_at_epoch : Nat
  updated_at_epoch : Nat
deriving Repr, DecidableEq

/-- Models ProgressSnapshot from crates/forge-types/src/lib.rs. -/
structure ProgressSnapshot where
  loops_with_progress : Nat
  loops_without_progress : Nat
  last_summary : String
  updated_at_epoch : Nat
deriving Repr, DecidableEq

/-- Models the derived Default for ProgressSnapshot. -/
def ProgressSnapshot.default : ProgressSnapshot :=
  { loops_with_progress := 0, loops_without_progress := 0
    last_summary := "", updated_at_epoch := 0 }

/-- Models CircuitBreakerAction from crates/forge-core/src/circuit_breaker.rs. -/
inductive CircuitBreakerAction where
  | Continue : CircuitBreakerAction
  | OpenCircuit : CircuitBreakerAction
deriving Repr, DecidableEq

/-- Models the CircuitBreaker struct from
crates/forge-core/src/circuit_breaker.rs. -/
structure CircuitBreaker where
  state : CircuitBreakerState
  no_progress_limit : Nat
deriving Repr, DecidableEq

/-- Models CircuitBreaker::new. -/
def CircuitBreaker.new (no_progress_limit : Nat) : CircuitBreaker :=
  { state := CircuitBreakerState.default, no_progress_limit := no_progress_limit }

/-- Models CircuitBreaker::record_progress: the mutation is returned as the
new breaker value together with the returned action. -/
def record_progress (cb : CircuitBreaker) : CircuitBreaker × CircuitBreakerAction :=
  ({ cb with state := { state := CircuitState.Closed, consecutive_no_progress := 0 } },
    CircuitBreakerAction.Continue)

/-- Models CircuitBreaker::record_no_progress: increment the counter, open at
the threshold, otherwise move to half-open. -/
def record_no_progress (cb : CircuitBreaker) : CircuitBreaker × CircuitBreakerAction :=
  let n := cb.state.consecutive_no_progress + 1
  if n ≥ cb.no_progress_limit then
    ({ cb with state := { state := CircuitState.Open, consecutive_no_progress := n } },
      CircuitBreakerAction.OpenCircuit)
  else
    ({ cb with state := { state := CircuitState.HalfOpen, consecutive_no_progress := n } },
      CircuitBreakerAction.Continue)

/-- Models CircuitBreaker::reset. -/
def CircuitBreaker.reset (cb : CircuitBreaker) : CircuitBreaker :=
  { cb with state := CircuitBreakerState.default }

/-- Applies record_no_progress n times, discarding the actions. -/
def noProgressIter : Nat → CircuitBreaker → CircuitBreaker
  | 0, cb => cb
  | n + 1, cb => noProgressIter n (record_no_progress cb).1

/-- Decimal digit accumulation for the integer parsers; fails on the first
character that is not an ASCII digit. -/
def digitsToNatAux : Nat → List Char → Option Nat
  | acc, [] => some acc
  | acc, c :: rest =>
    if c.isDigit then digitsToNatAux (acc * 10 + (c.toNat - 48)) rest
    else none

/-- Natural number denoted by a non-empty all-digit character list. -/
def digitsToNat : List Char → Option Nat
  | [] => none
  | ds => digitsToNatAux 0 ds

/-- Models str::parse::<i32>() from Rust: an optional sign, one or more
digits, and a range check against the i32 bounds. -/
def parseI32 (s : String) : Option Int :=
  match s.data with
  | '+' :: rest =>
    (digitsToNat rest).bind (fun n => if n ≤ 2147483647 then some (Int.ofNat n) else none)
  | '-' :: rest =>
    (digitsToNat rest).bind (fun n => if n ≤ 2147483648 then some (-(Int.ofNat n)) else none)
  | ds =>
    (digitsToNat ds).bind (fun n => if n ≤ 2147483647 then some (Int.ofNat n) else none)

/-- Models str::parse::<u32>() from Rust: an optional plus sign, one or more
digits, and a range check against the u32 bound. -/
def parseU32 (s : String) : Option Nat :=
  match s.data with
  | '+' :: rest => (digitsToNat rest).bind (fun n => if n ≤ 4294967295 then some n else none)
  | ds => (digitsToNat ds).bind (fun n => if n ≤ 4294967295 then some n else none)

/-- Models str::parse::<u64>() from Rust. -/
def parseU64 (s : String) : Option Nat :=
  match s.data with
  | '+' :: rest =>
    (digitsToNat rest).bind (fun n => if n ≤ 18446744073709551615 then some n else none)
  | ds => (digitsToNat ds).bind (fun n => if n ≤ 18446744073709551615 then some n else none)

/-- Models RateLimitResult from crates/forge-core/src/rate_limiter.rs. -/
structure RateLimitResult where
  allowed : Bool
  current_count : Nat
  remaining : Nat
deriving Repr, DecidableEq

/-- Models RateLimitState from crates/forge-core/src/rate_limiter.rs. -/
structure RateLimitState where
  count : Nat
  last_reset_epoch : Nat
deriving Repr, DecidableEq

/-- Models RateLimiter::load_state: each of the two files may be absent or
unparsable, in which case the corresponding scalar defaults to 0. The file
contents are passed explicitly. -/
def rl_load_state (countFile resetFile : Option String) : RateLimitState :=
  { count := (countFile.bind (fun v => parseU32 (rustTrim v))).getD 0
    last_reset_epoch := (resetFile.bind (fun v => parseU64 (rustTrim v))).getD 0 }

/-- Models RateLimiter::maybe_reset: the hour window is measured with
saturating subtraction, which Nat subtraction is. -/
def maybe_reset (st : RateLimitState) (now_epoch : Nat) : Nat × Nat :=
  if now_epoch - st.last_reset_epoch ≥ 3600 then (0, now_epoch)
  else (st.count, st.last_reset_epoch)

/-- Models RateLimiter::check_and_increment, with the persisted files
abstracted into an explicit state that is threaded to the next call. -/
def check_and_increment (max_calls_per_hour : Nat) (st : RateLimitState)
    (now_epoch : Nat) : RateLimitResult × RateLimitState :=
  let (count, last_reset) := maybe_reset st now_epoch
  if count ≥ max_calls_per_hour then
    ({ allowed := false, current_count := count, remaining := 0 },
      { count := count, last_reset_epoch := last_reset })
  else
    let new_count := count + 1
    ({ allowed := true, current_count := new_count,
       remaining := max_calls_per_hour - new_count },
      { count := new_count, last_reset_epoch := last_reset })

/-- Models is_stale_running_status from crates/forge-core/src/status.rs: the
pid file content is passed as an Option String and the OS process liveness
probe (signal-0 on unix, with permission-denied treated as alive) is the
explicit oracle alive. -/
def is_stale_running_status (status : RunStatus) (pidFile : Option String)
    (alive : Int → Bool) : Bool :=
  if status.state ≠ "running" then false
  else
    match pidFile with
    | none => true
    | some raw =>
      match parseI32 (rustTrim raw) with
      | none => true
      | some pid => if pid ≤ 0 then true else !(alive pid)

/-- Models read_status from crates/forge-core/src/status.rs, given an already
parsed status.json. The returned Bool records whether the .runner_pid file
was deleted (the stale branch). The wall clock is the explicit now argument. -/
def read_status (status : RunStatus) (pidFile : Option String)
    (alive : Int → Bool) (now : Nat) : RunStatus × Bool :=
  if is_stale_running_status status pidFile alive then
    ({ status with
        state := "stale_runner"
        current_loop := 0
        current_loop_started_at_epoch := 0
        last_heartbeat_at_epoch := 0
        last_error :=
          match status.last_error with
          | none => some "runner process not found"
          | some e => some e
        updated_at_epoch := now },
      true)
  else (status, false)

/-- Models the wall-clock timeout setup of execute_iteration
(crates/forge-core/src/lib.rs lines 261-267): None when timeout_minutes is 0,
otherwise the limit in seconds. -/
def timeout_of (timeout_minutes : Nat) : Option Nat :=
  if timeout_minutes = 0 then none else some (timeout_minutes * 60)

/-- Models the no-output watchdog setup of execute_iteration
(crates/forge-core/src/lib.rs lines 270-274): None when timeout_minutes is 0,
otherwise the fixed NO_OUTPUT_WATCHDOG_SECS of 120 seconds. -/
def watchdog_of (timeout_minutes : Nat) : Option Nat :=
  if timeout_minutes = 0 then none else some 120

/-- Models one evaluation of the deadline block in execute_iteration's poll
loop (crates/forge-core/src/lib.rs lines 335-367): when the child has already
exited nothing fires; otherwise the wall-clock branch is examined first and,
only when the timeout is None, the watchdog branch. Returns whether this poll
kills the child and sets timed_out. elapsed is seconds since process start
and since_output seconds since the last stream line. -/
def deadline_kill (timeout no_output_watchdog : Option Nat)
    (child_exited : Bool) (elapsed since_output : Nat) : Bool :=
  if child_exited then false
  else
    match timeout with
    | some limit => decide (elapsed ≥ limit)
    | none =>
      match no_output_watchdog with
      | some limit => decide (since_output ≥ limit)
      | none => false

/-- Models ExitReason from crates/forge-core/src/lib.rs. -/
inductive ExitReason where
  | Completed : ExitReason
  | CircuitOpened : ExitReason
  | RateLimited : ExitReason
  | MaxLoopsReached : ExitReason
deriving Repr, DecidableEq

/-- Models RunOutcome from crates/forge-core/src/lib.rs. -/
structure RunOutcome where
  reason : ExitReason
  loops_executed : Nat
  status : RunStatus
deriving Repr, DecidableEq

/-- The fields of RunConfig that run_loop consumes. The engine command and
argument fields only shape the spawned process, which the loop model receives
through its per-iteration input oracle. -/
structure RunConfig where
  thinking_mode : String
  completion_indicators : List String
  auto_wait_on_rate_limit : Bool
  sleep_on_rate_limit_secs : Nat
  no_progress_limit : Nat
deriving Repr, DecidableEq

/-- One iteration's external observations: the rate limiter's admission
decision (crates/forge-core/src/lib.rs check_and_increment_call_count reads
the on-disk call budget) and the engine execution result quadruple returned
by execute_iteration. -/
structure IterInput where
  rateAllowed : Bool
  stdout : String
  stderr : String
  exit_ok : Bool
  timed_out : Bool
deriving Repr, DecidableEq

/-- The loop-owned mutable state: the status, the progress snapshot and the
inline circuit breaker record, exactly the values run_loop persists after
every iteration. -/
structure LoopState where
  status : RunStatus
  progress : ProgressSnapshot
  circuit : CircuitBreakerState
deriving Repr, DecidableEq

/-- Models finalize_run_status from crates/forge-core/src/lib.rs. -/
def finalize_run_status (status : RunStatus) (state : String) (now : Nat) : RunStatus :=
  { status with
      state := state
      current_loop := 0
      current_loop_started_at_epoch := 0
      last_heartbeat_at_epoch := 0
      updated_at_epoch := now }

/-- Models summarize_output from crates/forge-core/src/lib.rs. -/
def summarize_output (stdout stderr : String) : String :=
  let joined := rustTrim stdout ++ " " ++ rustTrim stderr
  let trimmed := rustTrim joined
  if trimmed.isEmpty then "no output"
  else String.mk (trimmed.data.take 180)

/-- Models the progress classification of crates/forge-core/src/lib.rs line
148: the analyzer's hint, or a successful exit with non-empty trimmed stdout. -/
def has_progress (analysis : OutputAnalysis) (exit_ok : Bool) (stdout : String) : Bool :=
  analysis.has_progress_hint || (exit_ok && !(rustTrim stdout).isEmpty)

/-- Models lines 86-96 of run_loop: the status and progress mutations written
at the top of every pass, before the rate admission check. -/
def passStart (loop_count now : Nat) (st : LoopState) : LoopState :=
  { st with
      status := { st.status with
        current_loop := loop_count
        current_loop_started_at_epoch := now
        updated_at_epoch := now }
      progress := { st.progress with
        last_summary := "loop " ++ toString loop_count ++ " started: invoking codex"
        updated_at_epoch := now } }

/-- Models lines 113-191 of run_loop: the state as persisted after executing
the engine and folding in the analysis, the progress classification and the
inline circuit-breaker transition, on a rate-admitted pass whose start
mutations have already been applied. -/
def execState (cfg : RunConfig) (jparse : String → Option Json) (now : Nat)
    (st : LoopState) (inp : IterInput) : LoopState :=
  let status1 := { st.status with last_heartbeat_at_epoch := now }
  let analysis := analyze_output jparse inp.stdout inp.stderr cfg.completion_indicators
  let status2 :=
    match analysis.session_id with
    | some sid => { status1 with session_id := some sid }
    | none => status1
  let pc :=
    if has_progress analysis inp.exit_ok inp.stdout then
      ({ st.progress with loops_with_progress := st.progress.loops_with_progress + 1 },
        ({ state := CircuitState.Closed, consecutive_no_progress := 0 } : CircuitBreakerState))
    else
      let n := st.circuit.consecutive_no_progress + 1
      ({ st.progress with loops_without_progress := st.progress.loops_without_progress + 1 },
        ({ state := if n ≥ cfg.no_progress_limit then CircuitState.Open else CircuitState.HalfOpen
           consecutive_no_progress := n } : CircuitBreakerState))
  let progress1 := { pc.1 with
      last_summary := summarize_output inp.stdout inp.stderr
      updated_at_epoch := now }
  let circuit1 := pc.2
  let status3 := { status2 with
      total_loops_executed := status2.total_loops_executed + 1
      exit_signal_seen := analysis.exit_signal_true
      completion_indicators := analysis.completion_indicators
      last_error :=
        if inp.timed_out then some "iteration timed out"
        else if analysis.has_error then some "error marker found in output"
        else none
      circuit_state := circuit1.state
      updated_at_epoch := now }
  { status := status3, progress := progress1, circuit := circuit1 }

/-- Models the completion gate of crates/forge-core/src/lib.rs line 193: the
exit signal together with a positive completion-indicator count. -/
def dualGate (analysis : OutputAnalysis) : Bool :=
  analysis.exit_signal_true && decide (analysis.completion_indicators > 0)

/-- Models one pass of run_loop's while body (crates/forge-core/src/lib.rs
lines 84-211), entered with the already incremented loop counter loop_count.
All epoch_now() calls within one pass are collapsed to the single now value.
Returns the state as persisted by the pass and, when the pass returns from
run_loop, the returned outcome. -/
def runStep (cfg : RunConfig) (jparse : String → Option Json) (loop_count now : Nat)
    (st : LoopState) (inp : IterInput) : LoopState × Option RunOutcome :=
  let st0 := passStart loop_count now st
  if !inp.rateAllowed then
    let statusR := finalize_run_status st0.status "rate_limited" now
    if cfg.auto_wait_on_rate_limit then
      ({ st0 with status := statusR }, none)
    else
      ({ st0 with status := statusR },
        some { reason := ExitReason.RateLimited, loops_executed := loop_count, status := statusR })
  else
    let es := execState cfg jparse now st0 inp
    let analysis := analyze_output jparse inp.stdout inp.stderr cfg.completion_indicators
    if dualGate analysis then
      let fs := finalize_run_status es.status "completed" now
      ({ es with status := fs },
        some { reason := ExitReason.Completed, loops_executed := loop_count, status := fs })
    else if es.circuit.state = CircuitState.Open then
      let fs := finalize_run_status es.status "circuit_open" now
      ({ es with status := fs },
        some { reason := ExitReason.CircuitOpened, loops_executed := loop_count, status := fs })
    else
      (es, none)

/-- Fuel-indexed recursion equivalent to run_loop's while loop: the loop
counter increments exactly once per pass (including rate-rejected passes,
whose body reaches the continue statement), so the while guard
loop_count < max_loops amounts to the invariant fuel = max_loops - k. env
gives the pass inputs and clock the pass timestamps, both indexed by the
0-based pass number. -/
def runLoopAux (cfg : RunConfig) (jparse : String → Option Json)
    (env : Nat → IterInput) (clock : Nat → Nat) : Nat → Nat → LoopState → RunOutcome
  | k, 0, st =>
    { reason := ExitReason.MaxLoopsReached
      loops_executed := k
      status := finalize_run_status st.status "max_loops_reached" (clock k) }
  | k, fuel + 1, st =>
    match runStep cfg jparse (k + 1) (clock k) st (env k) with
    | (_, some outcome) => outcome
    | (st', none) => runLoopAux cfg jparse env clock (k + 1) fuel st'

/-- Models the fresh status run_loop builds at lines 56-70, preserving only
the previous session id. -/
def initStatus (cfg : RunConfig) (startNow : Nat) (prevSession : Option String) : RunStatus :=
  { state := "running"
    thinking_mode := cfg.thinking_mode
    run_started_at_epoch := startNow
    current_loop := 0
    total_loops_executed := 0
    last_error := none
    completion_indicators := 0
    exit_signal_seen := false
    session_id := prevSession
    circuit_state := CircuitState.Closed
    current_loop_started_at_epoch := 0
    last_heartbeat_at_epoch := 0
    updated_at_epoch := startNow }

/-- The state run_loop persists before entering the loop. -/
def initState (cfg : RunConfig) (startNow : Nat) (prevSession : Option String) : LoopState :=
  { status := initStatus cfg startNow prevSession
    progress := { ProgressSnapshot.default with updated_at_epoch := startNow }
    circuit := CircuitBreakerState.default }

/-- Models run_loop from crates/forge-core/src/lib.rs: initial state creation
followed by the iteration loop. -/
def run_loop (cfg : RunConfig) (jparse : String → Option Json)
    (env : Nat → IterInput) (clock : Nat → Nat) (max_loops : Nat)
    (startNow : Nat) (prevSession : Option String) : RunOutcome :=
  runLoopAux cfg jparse env clock 0 max_loops (initState cfg startNow prevSession)

/-- Modelled from the spec: the status-complete/task-complete fallback marker
of §4.1 step 7 and §9 (the lowercase-text fallback accepting
"status: complete" or "task_complete" anywhere in the combined raw output).
No such fallback exists anywhere under src/; this definition follows the
spec's words so the completion claim can be stated and compared against the
code's gate. -/
def specCompleteFallbackMarker (text : String) : Bool :=
  strContains (asciiLower text) "status: complete"
    || strContains (asciiLower text) "task_complete"

/-- A line parser that recognises no line as JSON, modelling serde_json on
plain-text output. -/
def jpNone : String → Option Json := fun _ => none

/-- A constant wall clock for concrete runs. -/
def clk0 : Nat → Nat := fun _ => 0

/-- A concrete run configuration used by the concrete runs below. -/
def sampleCfg : RunConfig :=
  { thinking_mode := "summary"
    completion_indicators := ["STATUS: COMPLETE"]
    auto_wait_on_rate_limit := false
    sleep_on_rate_limit_secs := 60
    no_progress_limit := 3 }

/-- sampleCfg with auto-wait-on-rate-limit enabled. -/
def sampleCfgWait : RunConfig :=
  { sampleCfg with auto_wait_on_rate_limit := true }

/-- Iteration input whose output satisfies only the spec's fallback marker:
the exit signal is present and "status: complete" appears in lowercase, so it
is not counted by the case-sensitive indicator "STATUS: COMPLETE". -/
def envFallback : Nat → IterInput := fun _ =>
  { rateAllowed := true
    stdout := "EXIT_SIGNAL: true status: complete"
    stderr := ""
    exit_ok := true
    timed_out := false }

/-- Iteration input whose output satisfies the code's completion gate. -/
def envComplete : Nat → IterInput := fun _ =>
  { rateAllowed := true
    stdout := "EXIT_SIGNAL: true STATUS: COMPLETE"
    stderr := ""
    exit_ok := true
    timed_out := false }

/-- Iteration input for a pass that the rate limiter rejects. -/
def envRejected : Nat → IterInput := fun _ =>
  { rateAllowed := false
    stdout := ""
    stderr := ""
    exit_ok := false
    timed_out := false }

/-- The single stdout line of the session-id counterexample, the JSON text
holding only the key id. -/
def idLine : String := "\x7b\"id\":\"abc\"\x7d"

/-- A line parser agreeing with serde_json::from_str on idLine: that line
parses to the one-key object, everything else is not JSON. -/
def jpId : String → Option Json := fun s =>
  if s = idLine then some (Json.obj [("id", Json.str "abc")]) else none

/-- The rate-limiter state loaded from an empty runtime directory: both files
absent, so count 0 and last reset epoch 0. -/
def rlS0 : RateLimitState := rl_load_state none none

/-- First call of the C4 scenario, at epoch 1000. -/
def rlCall1 : RateLimitResult × RateLimitState := check_and_increment 3 rlS0 1000

/-- Second call of the C4 scenario, at epoch 1001. -/
def rlCall2 : RateLimitResult × RateLimitState := check_and_increment 3 rlCall1.2 1001

/-- Third call of the C4 scenario, at epoch 1002. -/
def rlCall3 : RateLimitResult × RateLimitState := check_and_increment 3 rlCall2.2 1002

/-- A concrete persisted status in the running state, used to exercise the
staleness rewrite. -/
def sampleRunningStatus : RunStatus :=
  { state := "running"
    thinking_mode := "summary"
    run_started_at_epoch := 1000
    current_loop := 2
    total_loops_executed := 5
    last_error := none
    completion_indicators := 1
    exit_signal_seen := false
    session_id := some "sess-1"
    circuit_state := CircuitState.Closed
    current_loop_started_at_epoch := 1100
    last_heartbeat_at_epoch := 1150
    updated_at_epoch := 1200 }

/-! Theorems. Helper lemmas come first, then one theorem per claim with its
witness or counterexample. -/

/-- The threshold is untouched by record_no_progress. -/
theorem rnp_limit (cb : CircuitBreaker) :
    (record_no_progress cb).1.no_progress_limit = cb.no_progress_limit := by
  simp only [record_no_progress]
  split <;> rfl

/-- record_no_progress increments the counter by exactly one. -/
theorem rnp_counter (cb : CircuitBreaker) :
    (record_no_progress cb).1.state.consecutive_no_progress =
      cb.state.consecutive_no_progress + 1 := by
  simp only [record_no_progress]
  split <;> rfl

/-- The state after record_no_progress, as a conditional on the new counter. -/
theorem rnp_state (cb : CircuitBreaker) :
    (record_no_progress cb).1.state.state =
      (if cb.no_progress_limit ≤ cb.state.consecutive_no_progress + 1 then
        CircuitState.Open
      else CircuitState.HalfOpen) := by
  simp only [record_no_progress]
  split <;> rfl

/-- The action returned by record_no_progress, as a conditional. -/
theorem rnp_action (cb : CircuitBreaker) :
    (record_no_progress cb).2 =
      (if cb.no_progress_limit ≤ cb.state.consecutive_no_progress + 1 then
        CircuitBreakerAction.OpenCircuit
      else CircuitBreakerAction.Continue) := by
  simp only [record_no_progress]
  split <;> rfl

/-- Iterating record_no_progress preserves the threshold, adds the iteration
count to the counter, and leaves the state determined by the final counter. -/
theorem noProgressIter_spec (k : Nat) (cb : CircuitBreaker) :
    (noProgressIter k cb).no_progress_limit = cb.no_progress_limit ∧
    (noProgressIter k cb).state.consecutive_no_progress =
      cb.state.consecutive_no_progress + k ∧
    (1 ≤ k →
      (noProgressIter k cb).state.state =
        (if cb.no_progress_limit ≤ cb.state.consecutive_no_progress + k then
          CircuitState.Open
        else CircuitState.HalfOpen)) := by
  induction k generalizing cb with
  | zero => simp [noProgressIter]
  | succ n ih =>
    obtain ⟨ih1, ih2, ih3⟩ := ih (record_no_progress cb).1
    refine ⟨?_, ?_, ?_⟩
    · simp only [noProgressIter]
      rw [ih1, rnp_limit]
    · simp only [noProgressIter]
      rw [ih2, rnp_counter]
      omega
    · intro _
      rcases Nat.eq_zero_or_pos n with hn | hn
      · subst hn
        simp only [noProgressIter]
        rw [rnp_state]
      · have h3 := ih3 hn
        simp only [noProgressIter]
        rw [h3, rnp_counter, rnp_limit]
        have harith : cb.state.consecutive_no_progress + 1 + n =
            cb.state.consecutive_no_progress + (n + 1) := by omega
        rw [harith]

/-- C5. For every threshold N ≥ 1: record_progress resets the breaker to the
closed zero-counter state and returns Continue; record_no_progress increments
the counter by exactly one, opening with OpenCircuit once the new counter
reaches N and otherwise moving to HalfOpen with Continue; from a fresh
breaker, fewer than N consecutive no-progress calls leave it HalfOpen and
exactly N open it, and with N = 1 the very first call opens it. -/
theorem circuit_breaker_threshold (N : Nat) (hN : 1 ≤ N) :
    (∀ cb : CircuitBreaker,
      (record_progress cb).1.state = CircuitBreakerState.default ∧
      (record_progress cb).2 = CircuitBreakerAction.Continue) ∧
    (∀ cb : CircuitBreaker,
      (record_no_progress cb).1.state.consecutive_no_progress =
        cb.state.consecutive_no_progress + 1) ∧
    (∀ cb : CircuitBreaker, cb.no_progress_limit = N →
      N ≤ cb.state.consecutive_no_progress + 1 →
      (record_no_progress cb).1.state.state = CircuitState.Open ∧
      (record_no_progress cb).2 = CircuitBreakerAction.OpenCircuit) ∧
    (∀ cb : CircuitBreaker, cb.no_progress_limit = N →
      cb.state.consecutive_no_progress + 1 < N →
      (record_no_progress cb).1.state.state = CircuitState.HalfOpen ∧
      (record_no_progress cb).2 = CircuitBreakerAction.Continue) ∧
    (∀ k, 1 ≤ k → k < N →
      (noProgressIter k (CircuitBreaker.new N)).state.state = CircuitState.HalfOpen) ∧
    ((noProgressIter N (CircuitBreaker.new N)).state.state = CircuitState.Open) ∧
    ((record_no_progress (CircuitBreaker.new 1)).2 = CircuitBreakerAction.OpenCircuit) := by
  refine ⟨?_, ?_, ?_, ?_, ?_, ?_, ?_⟩
  · intro cb
    exact ⟨rfl, rfl⟩
  · intro cb
    exact rnp_counter cb
  · intro cb hlim hge
    rw [rnp_state, rnp_action, hlim]
    exact ⟨if_pos hge, if_pos hge⟩
  · intro cb hlim hlt
    rw [rnp_state, rnp_action, hlim]
    have h : ¬ (N ≤ cb.state.consecutive_no_progress + 1) := by omega
    exact ⟨if_neg h, if_neg h⟩
  · intro k hk1 hkN
    have h := (noProgressIter_spec k (CircuitBreaker.new N)).2.2 hk1
    rw [h]
    have hc : (CircuitBreaker.new N).state.consecutive_no_progress = 0 := rfl
    have hl : (CircuitBreaker.new N).no_progress_limit = N := rfl
    rw [hc, hl]
    have : ¬ (N ≤ 0 + k) := by omega
    exact if_neg this
  · have h := (noProgressIter_spec N (CircuitBreaker.new N)).2.2 hN
    rw [h]
    have hc : (CircuitBreaker.new N).state.consecutive_no_progress = 0 := rfl
    have hl : (CircuitBreaker.new N).no_progress_limit = N := rfl
    rw [hc, hl]
    exact if_pos (by omega)
  · decide

/-- Witness for C5 at N = 3: two consecutive no-progress calls leave a fresh
breaker HalfOpen, the third opens it. -/
theorem circuit_breaker_threshold_witness :
    (1 ≤ 3 ∧ 1 ≤ 2 ∧ 2 < 3) ∧
    (noProgressIter 2 (CircuitBreaker.new 3)).state.state = CircuitState.HalfOpen ∧
    (noProgressIter 3 (CircuitBreaker.new 3)).state.state = CircuitState.Open := by
  refine ⟨by omega, ?_, ?_⟩
  · exact (circuit_breaker_threshold 3 (by omega)).2.2.2.2.1 2 (by omega) (by omega)
  · exact (circuit_breaker_threshold 3 (by omega)).2.2.2.2.2.1

/-- C6 counterexample: the claim says no sequence of record_progress or
record_no_progress calls moves a breaker out of Open, but record_progress on
an Open breaker (threshold 1, opened by one no-progress call) closes it. -/
theorem record_progress_closes_open_breaker :
    ((record_no_progress (CircuitBreaker.new 1)).1.state.state = CircuitState.Open) ∧
    ((record_progress (record_no_progress (CircuitBreaker.new 1)).1).1.state.state
      = CircuitState.Closed) := by
  constructor <;> rfl

/-- C6 amended. An Open breaker whose counter has reached the threshold (the
invariant every breaker opened by record_no_progress satisfies, second
conjunct) stays Open under any number of further record_no_progress calls;
but record_progress resets any breaker, Open included, to Closed with counter
0, and reset restores the default closed state — so Open is only left through
record_progress or reset, never through record_no_progress. -/
theorem open_breaker_transitions :
    (∀ (cb : CircuitBreaker) (n : Nat), cb.state.state = CircuitState.Open →
      cb.no_progress_limit ≤ cb.state.consecutive_no_progress →
      (noProgressIter n cb).state.state = CircuitState.Open) ∧
    (∀ cb : CircuitBreaker, (record_no_progress cb).1.state.state = CircuitState.Open →
      (record_no_progress cb).1.no_progress_limit ≤
        (record_no_progress cb).1.state.consecutive_no_progress) ∧
    (∀ cb : CircuitBreaker,
      (record_progress cb).1.state.state = CircuitState.Closed ∧
      (record_progress cb).1.state.consecutive_no_progress = 0) ∧
    (∀ cb : CircuitBreaker, (CircuitBreaker.reset cb).state = CircuitBreakerState.default) := by
  refine ⟨?_, ?_, ?_, ?_⟩
  · intro cb n hopen hinv
    rcases Nat.eq_zero_or_pos n with hn | hn
    · subst hn
      simpa [noProgressIter] using hopen
    · have h := (noProgressIter_spec n cb).2.2 hn
      rw [h]
      exact if_pos (by omega)
  · intro cb hopen
    rw [rnp_state] at hopen
    rw [rnp_limit, rnp_counter]
    by_cases h : cb.no_progress_limit ≤ cb.state.consecutive_no_progress + 1
    · omega
    · rw [if_neg h] at hopen
      exact absurd hopen (by decide)
  · intro cb
    exact ⟨rfl, rfl⟩
  · intro cb
    rfl

/-- Witness for C6 amended: an Open breaker with counter at the threshold
stays Open after two more no-progress calls. -/
theorem open_breaker_transitions_witness :
    ((record_no_progress (CircuitBreaker.new 1)).1.state.state = CircuitState.Open ∧
      (record_no_progress (CircuitBreaker.new 1)).1.no_progress_limit ≤
        (record_no_progress (CircuitBreaker.new 1)).1.state.consecutive_no_progress) ∧
    (noProgressIter 2 (record_no_progress (CircuitBreaker.new 1)).1).state.state
      = CircuitState.Open := by
  refine ⟨⟨by decide, by decide⟩, ?_⟩
  exact open_breaker_transitions.1 (record_no_progress (CircuitBreaker.new 1)).1 2
    (by decide) (by decide)

/-- C2. The no-output watchdog of execute_iteration can never fire: when
timeout_minutes is nonzero the wall-clock branch (a Some) shadows the
watchdog branch of the else-if chain, and when timeout_minutes is zero the
watchdog is disabled too, so a deadline kill happens exactly when the child
is still running, timeouts are enabled and the wall clock has expired — the
silence duration is irrelevant. Concretely, with timeout_minutes = 10 and
130 seconds of silence (past the 120-second watchdog, before the 600-second
hard limit) no kill occurs, against the claim that the watchdog fires. -/
theorem no_output_watchdog_never_fires :
    (∀ (tm elapsed since_output : Nat) (ex : Bool),
      deadline_kill (timeout_of tm) (watchdog_of tm) ex elapsed since_output =
        (!ex && (decide (tm ≠ 0) && decide (tm * 60 ≤ elapsed)))) ∧
    (watchdog_of 10 = some 120) ∧
    (deadline_kill (timeout_of 10) (watchdog_of 10) false 130 130 = false) ∧
    (120 ≤ 130 ∧ 130 < 10 * 60) := by
  refine ⟨?_, by decide, by decide, by omega⟩
  intro tm elapsed since_output ex
  by_cases htm : tm = 0
  · subst htm
    cases ex <;> simp [deadline_kill, timeout_of, watchdog_of]
  · cases ex <;> simp [deadline_kill, timeout_of, watchdog_of, htm, ge_iff_le]

/-- C4 counterexample: the claim says any fourth call strictly before epoch
4600 is rejected, but after the three calls at 1000, 1001, 1002 from an empty
runtime directory the persisted last-reset epoch is still 0 (load_state
defaults it to 0 and no reset ever stored the first call's time), so a fourth
call at 4000 — strictly before 4600 — already satisfies now - last_reset ≥
3600, resets the window and is allowed. -/
theorem rate_limiter_fourth_call_at_4000_allowed :
    (4000 < 4600) ∧
    rlCall3.2 = { count := 3, last_reset_epoch := 0 } ∧
    (check_and_increment 3 rlCall3.2 4000).1 =
      { allowed := true, current_count := 1, remaining := 2 } := by
  refine ⟨by omega, by decide, by decide⟩

/-- C4 amended. From an empty runtime directory with max = 3: the calls at
1000, 1001, 1002 are allowed with counts 1, 2, 3; a fourth call is rejected
with remaining 0 exactly when it happens strictly before epoch 3600 (the
window is anchored at the defaulted last-reset epoch 0, not at the first
call); any call at epoch 3600 or later — in particular at or after 4600 —
resets the window and is allowed with count 1. -/
theorem rate_limiter_empty_dir_window :
    rlCall1.1 = { allowed := true, current_count := 1, remaining := 2 } ∧
    rlCall2.1 = { allowed := true, current_count := 2, remaining := 1 } ∧
    rlCall3.1 = { allowed := true, current_count := 3, remaining := 0 } ∧
    (∀ t, t < 3600 →
      (check_and_increment 3 rlCall3.2 t).1 =
        { allowed := false, current_count := 3, remaining := 0 }) ∧
    (∀ t, 3600 ≤ t →
      (check_and_increment 3 rlCall3.2 t).1 =
        { allowed := true, current_count := 1, remaining := 2 }) := by
  have hst : rlCall3.2 = { count := 3, last_reset_epoch := 0 } := by decide
  refine ⟨by decide, by decide, by decide, ?_, ?_⟩
  · intro t ht
    rw [hst]
    simp only [check_and_increment, maybe_reset]
    have hno : ¬ (3600 ≤ t - 0) := by omega
    rw [if_neg hno]
    norm_num
  · intro t ht
    rw [hst]
    simp only [check_and_increment, maybe_reset]
    have hyes : 3600 ≤ t - 0 := by omega
    rw [if_pos hyes]
    norm_num

/-- Witness for C4 amended: the fourth call at 1003 is rejected, a call at
4600 resets and is allowed. -/
theorem rate_limiter_empty_dir_window_witness :
    (1003 < 3600 ∧ 3600 ≤ 4600) ∧
    (check_and_increment 3 rlCall3.2 1003).1 =
      { allowed := false, current_count := 3, remaining := 0 } ∧
    (check_and_increment 3 rlCall3.2 4600).1 =
      { allowed := true, current_count := 1, remaining := 2 } := by
  refine ⟨by omega, ?_, ?_⟩
  · exact rate_limiter_empty_dir_window.2.2.2.1 1003 (by omega)
  · exact rate_limiter_empty_dir_window.2.2.2.2 4600 (by omega)

/-- C7. read_status is a self-healing read: a persisted status whose state is
not "running" is returned unchanged, as is a running status whose pid file
parses to a positive i32 that the liveness oracle reports alive; a running
status whose pid file is missing, unparsable, non-positive or names a dead
process is rewritten to stale_runner with zeroed current-loop and heartbeat
fields, the default last-error when none was present (the prior error kept
otherwise), a refreshed updated-at, and the pid file is deleted (the Bool
component). The permission-denied-counts-as-alive rule lives inside the
liveness oracle supplied by the caller. -/
theorem read_status_self_healing (status : RunStatus) (pidFile : Option String)
    (alive : Int → Bool) (now : Nat) :
    (status.state ≠ "running" → read_status status pidFile alive now = (status, false)) ∧
    (∀ raw pid, status.state = "running" → pidFile = some raw →
      parseI32 (rustTrim raw) = some pid → 0 < pid → alive pid = true →
      read_status status pidFile alive now = (status, false)) ∧
    (status.state = "running" →
      (pidFile = none ∨
        (∃ raw, pidFile = some raw ∧
          (parseI32 (rustTrim raw) = none ∨
            (∃ pid, parseI32 (rustTrim raw) = some pid ∧
              (pid ≤ 0 ∨ alive pid = false))))) →
      read_status status pidFile alive now =
        ({ status with
            state := "stale_runner"
            current_loop := 0
            current_loop_started_at_epoch := 0
            last_heartbeat_at_epoch := 0
            last_error := some (status.last_error.getD "runner process not found")
            updated_at_epoch := now },
          true)) := by
  refine ⟨?_, ?_, ?_⟩
  · intro hstate
    rw [read_status, if_neg]
    simp [is_stale_running_status, hstate]
  · intro raw pid hstate hpf hparse hpos halive
    rw [read_status, if_neg]
    simp only [is_stale_running_status, hstate, hpf, hparse]
    have : ¬ (pid ≤ 0) := by omega
    simp [this, halive]
  · intro hstate hcond
    have hstale : is_stale_running_status status pidFile alive = true := by
      rcases hcond with hnone | ⟨raw, hraw, hbad⟩
      · simp [is_stale_running_status, hstate, hnone]
      · rcases hbad with hparse | ⟨pid, hparse, hdead⟩
        · simp [is_stale_running_status, hstate, hraw, hparse]
        · rcases hdead with hle | hdead
          · simp [is_stale_running_status, hstate, hraw, hparse, hle]
          · simp only [is_stale_running_status, hstate, hraw, hparse]
            by_cases h0 : pid ≤ 0 <;> simp [h0, hdead]
    rw [read_status, if_pos hstale]
    cases herr : status.last_error <;> simp [herr]

/-- Witness for C7: a running status with no pid file is rewritten to
stale_runner with the default last error, and the pid file is deleted. -/
theorem read_status_self_healing_witness :
    sampleRunningStatus.state = "running" ∧
    read_status sampleRunningStatus none (fun _ => true) 2000 =
      ({ sampleRunningStatus with
          state := "stale_runner"
          current_loop := 0
          current_loop_started_at_epoch := 0
          last_heartbeat_at_epoch := 0
          last_error := some (sampleRunningStatus.last_error.getD "runner process not found")
          updated_at_epoch := 2000 },
        true) := by
  refine ⟨rfl, ?_⟩
  exact (read_status_self_healing sampleRunningStatus none (fun _ => true) 2000).2.2 rfl
    (Or.inl rfl)

/-- The completion-count component of the per-line folds of the two analyzers
agree regardless of the session-id components, because the count update never
reads the session id. -/
theorem lineFold_count_eq (jparse : String → Option Json) (indicators : List String)
    (lines : List String) :
    ∀ (s1 s2 : Option String) (c : Nat),
      (lines.foldl (coreLineStep jparse indicators) (s1, c)).2 =
        (lines.foldl (engineLineStep jparse indicators) (s2, c)).2 := by
  induction lines with
  | nil => intro s1 s2 c; rfl
  | cons l ls ih =>
    intro s1 s2 c
    simp only [List.foldl]
    cases h : jparse l with
    | none =>
      simp only [coreLineStep, engineLineStep, h]
      exact ih s1 s2 c
    | some v =>
      simp only [coreLineStep, engineLineStep, h, count_json_indicators]
      exact ih _ _ _

/-- C9 counterexample: the claim says analyze_output and OutputParser::parse
agree in every field on every input, but on the stdout line holding only the
JSON key id, the engine parser extracts the session id "abc" while the core
analyzer (whose key list lacks id) extracts none. -/
theorem analyzers_disagree_on_id_key :
    (analyze_output jpId idLine "" []).session_id = none ∧
    (outputParser_parse jpId idLine "" []).session_id = some "abc" ∧
    analyze_output jpId idLine "" [] ≠ outputParser_parse jpId idLine "" [] := by
  refine ⟨by decide, by decide, by decide⟩

/-- C9 amended. The two analyzer revisions agree on every input in the
exit_signal_true, completion_indicators, has_error and has_progress_hint
fields; the session_id field is the one divergence, the engine revision
additionally accepting the JSON key id (see the counterexample). -/
theorem analyzers_agree_except_id_key (jparse : String → Option Json)
    (stdout stderr : String) (indicators : List String) :
    (analyze_output jparse stdout stderr indicators).exit_signal_true =
      (outputParser_parse jparse stdout stderr indicators).exit_signal_true ∧
    (analyze_output jparse stdout stderr indicators).completion_indicators =
      (outputParser_parse jparse stdout stderr indicators).completion_indicators ∧
    (analyze_output jparse stdout stderr indicators).has_error =
      (outputParser_parse jparse stdout stderr indicators).has_error ∧
    (analyze_output jparse stdout stderr indicators).has_progress_hint =
      (outputParser_parse jparse stdout stderr indicators).has_progress_hint := by
  refine ⟨rfl, ?_, rfl, rfl⟩
  simp only [analyze_output, outputParser_parse, count_completion_indicators]
  exact lineFold_count_eq jparse indicators (rustLines stdout) none none _

/-- Shape of a pass the rate limiter rejects while auto-wait is on: the pass
continues (no outcome) after finalizing the status to rate_limited. -/
theorem runStep_rejected_wait (cfg : RunConfig) (jparse : String → Option Json)
    (lc now : Nat) (st : LoopState) (inp : IterInput)
    (h1 : inp.rateAllowed = false) (h2 : cfg.auto_wait_on_rate_limit = true) :
    runStep cfg jparse lc now st inp =
      ({ passStart lc now st with
          status := finalize_run_status (passStart lc now st).status "rate_limited" now },
        none) := by
  simp [runStep, h1, h2]

/-- Shape of a pass the rate limiter rejects while auto-wait is off: the loop
returns RateLimited with the rate_limited finalized status. -/
theorem runStep_rejected_noWait (cfg : RunConfig) (jparse : String → Option Json)
    (lc now : Nat) (st : LoopState) (inp : IterInput)
    (h1 : inp.rateAllowed = false) (h2 : cfg.auto_wait_on_rate_limit = false) :
    runStep cfg jparse lc now st inp =
      ({ passStart lc now st with
          status := finalize_run_status (passStart lc now st).status "rate_limited" now },
        some { reason := ExitReason.RateLimited, loops_executed := lc
               status := finalize_run_status (passStart lc now st).status "rate_limited" now }) := by
  simp [runStep, h1, h2]

/-- The completion gate holds exactly when the exit signal was seen and the
indicator count is positive. -/
theorem dualGate_eq_true (a : OutputAnalysis) :
    dualGate a = true ↔ (a.exit_signal_true = true ∧ 0 < a.completion_indicators) := by
  simp [dualGate]

/-- Shape of a rate-admitted pass whose analysis passes the completion gate:
the pass finalizes the status to completed and returns the Completed outcome. -/
theorem runStep_gate_true (cfg : RunConfig) (jparse : String → Option Json)
    (lc now : Nat) (st : LoopState) (inp : IterInput)
    (h1 : inp.rateAllowed = true)
    (hg : dualGate (analyze_output jparse inp.stdout inp.stderr cfg.completion_indicators)
      = true) :
    runStep cfg jparse lc now st inp =
      ({ execState cfg jparse now (passStart lc now st) inp with
          status := finalize_run_status
            (execState cfg jparse now (passStart lc now st) inp).status "completed" now },
        some { reason := ExitReason.Completed, loops_executed := lc
               status := finalize_run_status
                 (execState cfg jparse now (passStart lc now st) inp).status "completed" now }) := by
  simp [runStep, h1, hg]

/-- Shape of a rate-admitted pass whose analysis fails the completion gate:
the pass either trips on an open circuit or continues. -/
theorem runStep_gate_false (cfg : RunConfig) (jparse : String → Option Json)
    (lc now : Nat) (st : LoopState) (inp : IterInput)
    (h1 : inp.rateAllowed = true)
    (hg : dualGate (analyze_output jparse inp.stdout inp.stderr cfg.completion_indicators)
      = false) :
    runStep cfg jparse lc now st inp =
      (if (execState cfg jparse now (passStart lc now st) inp).circuit.state
          = CircuitState.Open then
        ({ execState cfg jparse now (passStart lc now st) inp with
            status := finalize_run_status
              (execState cfg jparse now (passStart lc now st) inp).status "circuit_open" now },
          some { reason := ExitReason.CircuitOpened, loops_executed := lc
                 status := finalize_run_status
                   (execState cfg jparse now (passStart lc now st) inp).status "circuit_open" now })
      else (execState cfg jparse now (passStart lc now st) inp, none)) := by
  simp [runStep, h1, hg]

/-- On a rate-admitted pass, the persisted progress and circuit values are
those of execState, in each of the three return branches. -/
theorem runStep_allowed_state (cfg : RunConfig) (jparse : String → Option Json)
    (lc now : Nat) (st : LoopState) (inp : IterInput) (h1 : inp.rateAllowed = true) :
    (runStep cfg jparse lc now st inp).1.progress =
      (execState cfg jparse now (passStart lc now st) inp).progress ∧
    (runStep cfg jparse lc now st inp).1.circuit =
      (execState cfg jparse now (passStart lc now st) inp).circuit := by
  cases hg : dualGate (analyze_output jparse inp.stdout inp.stderr cfg.completion_indicators)
  · rw [runStep_gate_false cfg jparse lc now st inp h1 hg]
    split
    · exact ⟨rfl, rfl⟩
    · exact ⟨rfl, rfl⟩
  · rw [runStep_gate_true cfg jparse lc now st inp h1 hg]
    exact ⟨rfl, rfl⟩

/-- A pass returns the Completed outcome exactly when the rate limiter admits
it and the analysis of its output has the exit signal and a positive
completion-indicator count; and the status it finalizes then reads completed. -/
theorem runStep_completed_iff (cfg : RunConfig) (jparse : String → Option Json)
    (lc now : Nat) (st : LoopState) (inp : IterInput) :
    (((runStep cfg jparse lc now st inp).2.map RunOutcome.reason = some ExitReason.Completed) ↔
      (inp.rateAllowed = true ∧
        (analyze_output jparse inp.stdout inp.stderr cfg.completion_indicators).exit_signal_true
          = true ∧
        0 < (analyze_output jparse inp.stdout inp.stderr
          cfg.completion_indicators).completion_indicators)) ∧
    (∀ o, (runStep cfg jparse lc now st inp).2 = some o →
      o.reason = ExitReason.Completed → o.status.state = "completed") := by
  cases hr : inp.rateAllowed with
  | false =>
    cases hw : cfg.auto_wait_on_rate_limit
    · rw [runStep_rejected_noWait cfg jparse lc now st inp hr hw]
      refine ⟨by simp, ?_⟩
      intro o ho hrsn
      simp only [Option.some.injEq] at ho
      rw [← ho] at hrsn
      exact ExitReason.noConfusion hrsn
    · rw [runStep_rejected_wait cfg jparse lc now st inp hr hw]
      refine ⟨by simp, ?_⟩
      intro o ho
      simp at ho
  | true =>
    cases hg : dualGate (analyze_output jparse inp.stdout inp.stderr cfg.completion_indicators)
      with
    | false =>
      rw [runStep_gate_false cfg jparse lc now st inp hr hg]
      have hcond : ¬ ((analyze_output jparse inp.stdout inp.stderr
          cfg.completion_indicators).exit_signal_true = true ∧
          0 < (analyze_output jparse inp.stdout inp.stderr
            cfg.completion_indicators).completion_indicators) := by
        intro hh
        have hdg := (dualGate_eq_true _).mpr hh
        rw [hg] at hdg
        exact Bool.noConfusion hdg
      constructor
      · split
        · exact iff_of_false (by simp) (fun hh => hcond ⟨hh.2.1, hh.2.2⟩)
        · exact iff_of_false (by simp) (fun hh => hcond ⟨hh.2.1, hh.2.2⟩)
      · intro o ho hrsn
        split at ho
        · simp only [Option.some.injEq] at ho
          rw [← ho] at hrsn
          exact ExitReason.noConfusion hrsn
        · simp at ho
    | true =>
      rw [runStep_gate_true cfg jparse lc now st inp hr hg]
      obtain ⟨he, hc⟩ := (dualGate_eq_true _).mp hg
      refine ⟨iff_of_true rfl ⟨rfl, he, hc⟩, ?_⟩
      intro o ho _
      simp only [Option.some.injEq] at ho
      rw [← ho]
      rfl

/-- When the run returns Completed, some admitted pass satisfied the gate. -/
theorem runLoopAux_completed_only_if (cfg : RunConfig) (jparse : String → Option Json)
    (env : Nat → IterInput) (clock : Nat → Nat) :
    ∀ (fuel k : Nat) (st : LoopState),
      (runLoopAux cfg jparse env clock k fuel st).reason = ExitReason.Completed →
      ∃ j, k ≤ j ∧ j < k + fuel ∧ (env j).rateAllowed = true ∧
        (analyze_output jparse (env j).stdout (env j).stderr
          cfg.completion_indicators).exit_signal_true = true ∧
        0 < (analyze_output jparse (env j).stdout (env j).stderr
          cfg.completion_indicators).completion_indicators := by
  intro fuel
  induction fuel with
  | zero =>
    intro k st h
    exact absurd h (by simp [runLoopAux])
  | succ n ih =>
    intro k st h
    rcases hstep : runStep cfg jparse (k + 1) (clock k) st (env k) with ⟨st2, o⟩
    rw [runLoopAux, hstep] at h
    cases o with
    | some outcome =>
      simp only at h
      have hmap : (runStep cfg jparse (k + 1) (clock k) st (env k)).2.map RunOutcome.reason
          = some ExitReason.Completed := by
        rw [hstep]
        simp [h]
      obtain ⟨hra, hes, hci⟩ :=
        (runStep_completed_iff cfg jparse (k + 1) (clock k) st (env k)).1.mp hmap
      exact ⟨k, Nat.le_refl k, by omega, hra, hes, hci⟩
    | none =>
      simp only at h
      obtain ⟨j, hj1, hj2, rest⟩ := ih (k + 1) st2 h
      exact ⟨j, by omega, by omega, rest⟩

/-- Case split of execState on the progress classification: a progress pass
bumps loops_with_progress and resets the circuit record to closed/zero, a
no-progress pass bumps loops_without_progress, increments the consecutive
counter and sets the breaker state by comparing it with the threshold. -/
theorem execState_classification (cfg : RunConfig) (jparse : String → Option Json)
    (now : Nat) (st : LoopState) (inp : IterInput) :
    (has_progress (analyze_output jparse inp.stdout inp.stderr cfg.completion_indicators)
        inp.exit_ok inp.stdout = true →
      (execState cfg jparse now st inp).progress.loops_with_progress =
        st.progress.loops_with_progress + 1 ∧
      (execState cfg jparse now st inp).progress.loops_without_progress =
        st.progress.loops_without_progress ∧
      (execState cfg jparse now st inp).circuit =
        { state := CircuitState.Closed, consecutive_no_progress := 0 }) ∧
    (has_progress (analyze_output jparse inp.stdout inp.stderr cfg.completion_indicators)
        inp.exit_ok inp.stdout = false →
      (execState cfg jparse now st inp).progress.loops_with_progress =
        st.progress.loops_with_progress ∧
      (execState cfg jparse now st inp).progress.loops_without_progress =
        st.progress.loops_without_progress + 1 ∧
      (execState cfg jparse now st inp).circuit.consecutive_no_progress =
        st.circuit.consecutive_no_progress + 1 ∧
      (execState cfg jparse now st inp).circuit.state =
        (if st.circuit.consecutive_no_progress + 1 ≥ cfg.no_progress_limit then
          CircuitState.Open
        else CircuitState.HalfOpen)) := by
  constructor
  · intro hp
    simp [execState, hp]
  · intro hp
    simp [execState, hp]

/-- The progress-classification flag spelled as a proposition. -/
theorem has_progress_iff (a : OutputAnalysis) (exit_ok : Bool) (stdout : String) :
    has_progress a exit_ok stdout = true ↔
      (a.has_progress_hint = true ∨
        (exit_ok = true ∧ (rustTrim stdout).isEmpty = false)) := by
  simp [has_progress, Bool.not_eq_true']

/-- C8. On a rate-admitted pass, the iteration counts as progress — bumping
loops_with_progress and resetting the breaker to closed with counter 0 —
exactly when the analyzer's progress hint fired or the process exited
successfully with non-empty trimmed stdout; otherwise loops_without_progress
is bumped and the breaker takes its no-progress transition (counter + 1,
Open at the threshold, HalfOpen below it). -/
theorem progress_classification (cfg : RunConfig) (jparse : String → Option Json)
    (lc now : Nat) (st : LoopState) (inp : IterInput) (hr : inp.rateAllowed = true) :
    (((analyze_output jparse inp.stdout inp.stderr
        cfg.completion_indicators).has_progress_hint = true ∨
      (inp.exit_ok = true ∧ (rustTrim inp.stdout).isEmpty = false)) →
      (runStep cfg jparse lc now st inp).1.progress.loops_with_progress =
        st.progress.loops_with_progress + 1 ∧
      (runStep cfg jparse lc now st inp).1.progress.loops_without_progress =
        st.progress.loops_without_progress ∧
      (runStep cfg jparse lc now st inp).1.circuit =
        { state := CircuitState.Closed, consecutive_no_progress := 0 }) ∧
    (¬ ((analyze_output jparse inp.stdout inp.stderr
        cfg.completion_indicators).has_progress_hint = true ∨
      (inp.exit_ok = true ∧ (rustTrim inp.stdout).isEmpty = false)) →
      (runStep cfg jparse lc now st inp).1.progress.loops_with_progress =
        st.progress.loops_with_progress ∧
      (runStep cfg jparse lc now st inp).1.progress.loops_without_progress =
        st.progress.loops_without_progress + 1 ∧
      (runStep cfg jparse lc now st inp).1.circuit.consecutive_no_progress =
        st.circuit.consecutive_no_progress + 1 ∧
      (runStep cfg jparse lc now st inp).1.circuit.state =
        (if st.circuit.consecutive_no_progress + 1 ≥ cfg.no_progress_limit then
          CircuitState.Open
        else CircuitState.HalfOpen)) := by
  obtain ⟨hA, hB⟩ := runStep_allowed_state cfg jparse lc now st inp hr
  constructor
  · intro hd
    have hp : has_progress (analyze_output jparse inp.stdout inp.stderr
        cfg.completion_indicators) inp.exit_ok inp.stdout = true :=
      (has_progress_iff _ _ _).mpr hd
    obtain ⟨h1, h2, h3⟩ :=
      (execState_classification cfg jparse now (passStart lc now st) inp).1 hp
    rw [hA, hB]
    exact ⟨h1, h2, h3⟩
  · intro hd
    have hp : has_progress (analyze_output jparse inp.stdout inp.stderr
        cfg.completion_indicators) inp.exit_ok inp.stdout = false := by
      rcases hb : has_progress (analyze_output jparse inp.stdout inp.stderr
          cfg.completion_indicators) inp.exit_ok inp.stdout
      · rfl
      · exact absurd ((has_progress_iff _ _ _).mp hb) hd
    obtain ⟨h1, h2, h3, h4⟩ :=
      (execState_classification cfg jparse now (passStart lc now st) inp).2 hp
    rw [hA, hB]
    exact ⟨h1, h2, h3, h4⟩

/-- Witness for C8: a successful exit with non-empty stdout and no hint is
classified as progress, bumping the counter and closing the breaker. -/
theorem progress_classification_witness :
    ((envComplete 0).rateAllowed = true ∧
      ((envComplete 0).exit_ok = true ∧ (rustTrim (envComplete 0).stdout).isEmpty = false)) ∧
    (runStep sampleCfg jpNone 1 0 (initState sampleCfg 0 none)
        (envComplete 0)).1.progress.loops_with_progress =
      (initState sampleCfg 0 none).progress.loops_with_progress + 1 ∧
    (runStep sampleCfg jpNone 1 0 (initState sampleCfg 0 none) (envComplete 0)).1.circuit =
      { state := CircuitState.Closed, consecutive_no_progress := 0 } := by
  have hd : ((analyze_output jpNone (envComplete 0).stdout (envComplete 0).stderr
      sampleCfg.completion_indicators).has_progress_hint = true ∨
      ((envComplete 0).exit_ok = true ∧ (rustTrim (envComplete 0).stdout).isEmpty = false)) :=
    Or.inr ⟨rfl, by decide⟩
  obtain ⟨h1, _, h3⟩ :=
    (progress_classification sampleCfg jpNone 1 0 (initState sampleCfg 0 none)
      (envComplete 0) rfl).1 hd
  exact ⟨⟨rfl, rfl, by decide⟩, h1, h3⟩

/-- C10. With max_loops = 0 the loop body never runs: the outcome is
MaxLoopsReached with zero loops executed and the final status state is
max_loops_reached; the outcome is identical for every iteration-input oracle
and every line parser, which is the model's rendering of the fact that
neither the rate limiter nor the engine is ever consulted. -/
theorem run_loop_zero_max_loops (cfg : RunConfig)
    (jparse jparse2 : String → Option Json) (env env2 : Nat → IterInput)
    (clock : Nat → Nat) (startNow : Nat) (prevSession : Option String) :
    (run_loop cfg jparse env clock 0 startNow prevSession).reason =
      ExitReason.MaxLoopsReached ∧
    (run_loop cfg jparse env clock 0 startNow prevSession).loops_executed = 0 ∧
    (run_loop cfg jparse env clock 0 startNow prevSession).status.state =
      "max_loops_reached" ∧
    run_loop cfg jparse env clock 0 startNow prevSession =
      run_loop cfg jparse2 env2 clock 0 startNow prevSession := by
  exact ⟨rfl, rfl, rfl, rfl⟩

/-- Projection facts for a rejected pass under auto-wait: it continues and
leaves the executed-iterations counter untouched. -/
theorem runStep_rejected_wait_facts (cfg : RunConfig) (jparse : String → Option Json)
    (lc now : Nat) (st : LoopState) (inp : IterInput)
    (h1 : inp.rateAllowed = false) (h2 : cfg.auto_wait_on_rate_limit = true) :
    (runStep cfg jparse lc now st inp).2 = none ∧
    (runStep cfg jparse lc now st inp).1.status.total_loops_executed =
      st.status.total_loops_executed := by
  rw [runStep_rejected_wait cfg jparse lc now st inp h1 h2]
  exact ⟨rfl, rfl⟩

/-- Under auto-wait with every pass rejected, the loop walks through all its
fuel (each rejected pass consumes a loop number), ends MaxLoopsReached, and
never increments the executed-iterations counter. -/
theorem runLoopAux_all_rejected (cfg : RunConfig) (jparse : String → Option Json)
    (env : Nat → IterInput) (clock : Nat → Nat)
    (hw : cfg.auto_wait_on_rate_limit = true)
    (hr : ∀ j, (env j).rateAllowed = false) :
    ∀ (fuel k : Nat) (st : LoopState),
      (runLoopAux cfg jparse env clock k fuel st).reason = ExitReason.MaxLoopsReached ∧
      (runLoopAux cfg jparse env clock k fuel st).loops_executed = k + fuel ∧
      (runLoopAux cfg jparse env clock k fuel st).status.total_loops_executed =
        st.status.total_loops_executed := by
  intro fuel
  induction fuel with
  | zero =>
    intro k st
    exact ⟨rfl, rfl, rfl⟩
  | succ n ih =>
    intro k st
    obtain ⟨hf1, hf2⟩ :=
      runStep_rejected_wait_facts cfg jparse (k + 1) (clock k) st (env k) (hr k) hw
    rcases hstep : runStep cfg jparse (k + 1) (clock k) st (env k) with ⟨st2, o⟩
    rw [hstep] at hf1 hf2
    simp only at hf1 hf2
    subst hf1
    simp only [runLoopAux, hstep]
    obtain ⟨ih1, ih2, ih3⟩ := ih (k + 1) st2
    refine ⟨ih1, ?_, ?_⟩
    · rw [ih2]
      omega
    · rw [ih3, hf2]

/-- C3 counterexample: under auto-wait, a run with max_loops = 1 whose only
pass is rejected by the rate limiter ends MaxLoopsReached without ever
executing an iteration — the rejected retry consumed the loop count, against
the claim that a rejected attempt can never cause MaxLoopsReached. -/
theorem rejected_pass_consumes_loop :
    sampleCfgWait.auto_wait_on_rate_limit = true ∧
    (envRejected 0).rateAllowed = false ∧
    (run_loop sampleCfgWait jpNone envRejected clk0 1 0 none).reason =
      ExitReason.MaxLoopsReached ∧
    (run_loop sampleCfgWait jpNone envRejected clk0 1 0 none).loops_executed = 1 ∧
    (run_loop sampleCfgWait jpNone envRejected clk0 1 0 none).status.total_loops_executed
      = 0 := by
  exact ⟨rfl, rfl, rfl, rfl, rfl⟩

/-- C3 amended. A rate-limiter rejection with auto-wait on sleeps and then
re-enters the loop, but the rejected pass consumes a loop count (the counter
is incremented before the rate check), so a run whose passes are all rejected
ends MaxLoopsReached after max_loops passes with zero executed iterations;
with auto-wait off the run finalizes state rate_limited and returns
RateLimited on the first rejected pass. -/
theorem rate_rejection_behavior (cfg : RunConfig) (jparse : String → Option Json)
    (env : Nat → IterInput) (clock : Nat → Nat) :
    (cfg.auto_wait_on_rate_limit = true → (∀ j, (env j).rateAllowed = false) →
      ∀ (max_loops startNow : Nat) (prevSession : Option String),
        (run_loop cfg jparse env clock max_loops startNow prevSession).reason =
          ExitReason.MaxLoopsReached ∧
        (run_loop cfg jparse env clock max_loops startNow prevSession).loops_executed =
          max_loops ∧
        (run_loop cfg jparse env clock max_loops startNow
          prevSession).status.total_loops_executed = 0) ∧
    (cfg.auto_wait_on_rate_limit = false → (env 0).rateAllowed = false →
      ∀ (max_loops startNow : Nat) (prevSession : Option String), 1 ≤ max_loops →
        (run_loop cfg jparse env clock max_loops startNow prevSession).reason =
          ExitReason.RateLimited ∧
        (run_loop cfg jparse env clock max_loops startNow prevSession).loops_executed = 1 ∧
        (run_loop cfg jparse env clock max_loops startNow prevSession).status.state =
          "rate_limited") := by
  constructor
  · intro hw hr ml sn pv
    obtain ⟨h1, h2, h3⟩ :=
      runLoopAux_all_rejected cfg jparse env clock hw hr ml 0 (initState cfg sn pv)
    refine ⟨h1, ?_, h3⟩
    rw [show (run_loop cfg jparse env clock ml sn pv).loops_executed =
      (runLoopAux cfg jparse env clock 0 ml (initState cfg sn pv)).loops_executed from rfl, h2]
    omega
  · intro hw hr ml sn pv hml
    obtain ⟨m, rfl⟩ : ∃ m, ml = m + 1 := ⟨ml - 1, by omega⟩
    have hshape := runStep_rejected_noWait cfg jparse (0 + 1) (clock 0)
      (initState cfg sn pv) (env 0) hr hw
    simp [run_loop, runLoopAux, hshape, finalize_run_status]

/-- Witness for C3 amended: two all-rejected passes under auto-wait exhaust
max_loops = 2, and with auto-wait off the first rejection returns RateLimited. -/
theorem rate_rejection_behavior_witness :
    (sampleCfgWait.auto_wait_on_rate_limit = true ∧
      sampleCfg.auto_wait_on_rate_limit = false ∧
      (envRejected 0).rateAllowed = false ∧ 1 ≤ 2) ∧
    ((run_loop sampleCfgWait jpNone envRejected clk0 2 0 none).reason =
        ExitReason.MaxLoopsReached ∧
      (run_loop sampleCfgWait jpNone envRejected clk0 2 0 none).loops_executed = 2 ∧
      (run_loop sampleCfgWait jpNone envRejected clk0 2 0
        none).status.total_loops_executed = 0) ∧
    ((run_loop sampleCfg jpNone envRejected clk0 2 0 none).reason =
        ExitReason.RateLimited ∧
      (run_loop sampleCfg jpNone envRejected clk0 2 0 none).loops_executed = 1 ∧
      (run_loop sampleCfg jpNone envRejected clk0 2 0 none).status.state =
        "rate_limited") := by
  refine ⟨⟨rfl, rfl, rfl, by omega⟩, ?_, ?_⟩
  · exact (rate_rejection_behavior sampleCfgWait jpNone envRejected clk0).1 rfl
      (fun j => rfl) 2 0 none
  · exact (rate_rejection_behavior sampleCfg jpNone envRejected clk0).2 rfl rfl 2 0 none
      (by omega)

/-- C1 counterexample: an iteration whose output carries the exit signal and
the spec's status-complete fallback marker but no configured indicator match
(the indicator list is case-sensitively unmatched) does not complete the run
— run_loop has no fallback leg, so the run falls through to MaxLoopsReached,
against the claim that the fallback marker must complete it. -/
theorem fallback_marker_does_not_complete :
    (analyze_output jpNone (envFallback 0).stdout (envFallback 0).stderr
      sampleCfg.completion_indicators).exit_signal_true = true ∧
    (analyze_output jpNone (envFallback 0).stdout (envFallback 0).stderr
      sampleCfg.completion_indicators).completion_indicators = 0 ∧
    specCompleteFallbackMarker ((envFallback 0).stdout ++ "\n" ++ (envFallback 0).stderr)
      = true ∧
    (run_loop sampleCfg jpNone envFallback clk0 1 0 none).reason =
      ExitReason.MaxLoopsReached := by
  refine ⟨by decide, by decide, by decide, by decide⟩

/-- C1 amended. The run completes exactly on the code's dual gate without any
fallback leg: a pass returns Completed if and only if the rate limiter admits
it and its analysis has exit_signal_true with a positive indicator count (and
the finalized status then reads completed); and a whole run that returns
Completed contains such a pass. -/
theorem run_loop_completion_dual_gate (cfg : RunConfig) (jparse : String → Option Json)
    (env : Nat → IterInput) (clock : Nat → Nat) :
    (∀ (lc now : Nat) (st : LoopState) (inp : IterInput),
      ((runStep cfg jparse lc now st inp).2.map RunOutcome.reason =
          some ExitReason.Completed) ↔
        (inp.rateAllowed = true ∧
          (analyze_output jparse inp.stdout inp.stderr
            cfg.completion_indicators).exit_signal_true = true ∧
          0 < (analyze_output jparse inp.stdout inp.stderr
            cfg.completion_indicators).completion_indicators)) ∧
    (∀ (lc now : Nat) (st : LoopState) (inp : IterInput) (o : RunOutcome),
      (runStep cfg jparse lc now st inp).2 = some o →
      o.reason = ExitReason.Completed → o.status.state = "completed") ∧
    (∀ (max_loops startNow : Nat) (prevSession : Option String),
      (run_loop cfg jparse env clock max_loops startNow prevSession).reason =
        ExitReason.Completed →
      ∃ j, j < max_loops ∧ (env j).rateAllowed = true ∧
        (analyze_output jparse (env j).stdout (env j).stderr
          cfg.completion_indicators).exit_signal_true = true ∧
        0 < (analyze_output jparse (env j).stdout (env j).stderr
          cfg.completion_indicators).completion_indicators) := by
  refine ⟨fun lc now st inp => (runStep_completed_iff cfg jparse lc now st inp).1,
    fun lc now st inp => (runStep_completed_iff cfg jparse lc now st inp).2, ?_⟩
  intro ml sn pv h
  have h2 : (runLoopAux cfg jparse env clock 0 ml (initState cfg sn pv)).reason =
      ExitReason.Completed := h
  obtain ⟨j, _, hj2, rest⟩ :=
    runLoopAux_completed_only_if cfg jparse env clock ml 0 (initState cfg sn pv) h2
  exact ⟨j, by omega, rest⟩

/-- Witness for C1 amended: a run whose first pass carries the exit signal
and a matching indicator returns Completed, and the gate facts hold at it. -/
theorem run_loop_completion_dual_gate_witness :
    (run_loop sampleCfg jpNone envComplete clk0 1 0 none).reason =
      ExitReason.Completed ∧
    (∃ j, j < 1 ∧ (envComplete j).rateAllowed = true ∧
      (analyze_output jpNone (envComplete j).stdout (envComplete j).stderr
        sampleCfg.completion_indicators).exit_signal_true = true ∧
      0 < (analyze_output jpNone (envComplete j).stdout (envComplete j).stderr
        sampleCfg.completion_indicators).completion_indicators) := by
  have h : (run_loop sampleCfg jpNone envComplete clk0 1 0 none).reason =
      ExitReason.Completed := by decide
  exact ⟨h,
    (run_loop_completion_dual_gate sampleCfg jpNone envComplete clk0).2.2 1 0 none h⟩

end Forge
